import Mathlib

/-!
# Verification of the Ramadan Journal order-submission flow

Shallow embedding of `src/ramadan-journal/assets/js/modules/form-handler.js`
(field validation, honeypot filtering, order-id generation, submission client)
and of the modal/focus controller module (`openOrderForm`, `closeOrderForm`,
`closeConfirmation`, Escape handling).

DOM elements are modelled as `Option`-valued components of an explicit
`PageState`; JS strings are Lean `String`s; the nondeterministic inputs of a
run (`Date.now()`, `Math.random()`, `new Date().toISOString()`, the network
response) are passed as explicit parameters.
-/

set_option autoImplicit false

namespace Arise

/-- The ASCII/latin-1 characters recognised by the JS `\s` class and by
`String.prototype.trim` (space, tab, LF, VT, FF, CR, NBSP).  Non-latin
unicode space characters are outside the fragment exercised here. -/
def jsWhitespaceChar (c : Char) : Bool :=
  c = ' ' || c = '\t' || c = '\n' || c = '\x0b' || c = '\x0c' || c = '\r' || c = '\xa0'

/-- JS `String.prototype.trim`: strip leading and trailing whitespace. -/
def jsTrim (s : String) : String :=
  ⟨((s.data.dropWhile jsWhitespaceChar).reverse.dropWhile jsWhitespaceChar).reverse⟩

/-- JS `a.includes(b)`: substring containment. -/
def strIncludes (s sub : String) : Bool :=
  decide (sub.data.IsInfix s.data)

/-- JS `s.substring(a, b)` (with `a ≤ b`): characters at indices `[a, b)`. -/
def jsSubstring (s : String) (a b : Nat) : String :=
  ⟨(s.data.drop a).take (b - a)⟩

/-- JS `s.toUpperCase()` on the ASCII fragment. -/
def jsToUpper (s : String) : String :=
  ⟨s.data.map Char.toUpper⟩

/-! ## Validation patterns (`patterns` object, form-handler.js lines 23-28) -/

/-- Character admitted by the phone class `[0-9\s\-\(\)]`. -/
def phoneChar (c : Char) : Bool :=
  c.isDigit || jsWhitespaceChar c || c = '-' || c = '(' || c = ')'

/-- `patterns.phone = /^[\+]?[0-9\s\-\(\)]{10,20}$/`.  Since `+` is not in
the repeated class, a full match forces the optional `[\+]?` to consume a
leading `+` when one is present; the rest is 10-20 class characters. -/
def phoneTest (s : String) : Bool :=
  let l := s.data
  let t := if l.head? = some '+' then l.drop 1 else l
  decide (10 ≤ t.length) && decide (t.length ≤ 20) && t.all phoneChar

/-- Character admitted by the name class `[a-zA-Z\s\-']`. -/
def nameChar (c : Char) : Bool :=
  ('a' ≤ c && c ≤ 'z') || ('A' ≤ c && c ≤ 'Z') || jsWhitespaceChar c ||
    c = '-' || c = Char.ofNat 39

/-- `patterns.name = /^[a-zA-Z\s\-']{2,50}$/`. -/
def nameTest (s : String) : Bool :=
  decide (2 ≤ s.data.length) && decide (s.data.length ≤ 50) && s.data.all nameChar

/-- Character admitted by the postal class `[a-zA-Z0-9\s\-]`. -/
def postalChar (c : Char) : Bool :=
  ('a' ≤ c && c ≤ 'z') || ('A' ≤ c && c ≤ 'Z') || c.isDigit ||
    jsWhitespaceChar c || c = '-'

/-- `patterns.postalCode = /^[a-zA-Z0-9\s\-]{3,10}$/`. -/
def postalCodeTest (s : String) : Bool :=
  decide (3 ≤ s.data.length) && decide (s.data.length ≤ 10) && s.data.all postalChar

/-- Character admitted by the email class `[^\s@]`. -/
def emailChar (c : Char) : Bool :=
  !jsWhitespaceChar c && c ≠ '@'

/-- `patterns.email = /^[^\s@]+@[^\s@]+\.[^\s@]+$/`.  A full match is a
split `A ++ "@" ++ B ++ "." ++ C` with `A`, `B`, `C` nonempty strings of
`[^\s@]` characters.  Equivalently: no whitespace anywhere, exactly one
`@`, a nonempty part before the `@`, and after the `@` a `.` that is
neither the first nor the last character of that part. -/
def emailTest (s : String) : Bool :=
  let l := s.data
  let i := l.findIdx (fun c => c = '@')
  let before := l.take i
  let after := l.drop (i + 1)
  l.all (fun c => !jsWhitespaceChar c) &&
    decide (l.count '@' = 1) &&
    !before.isEmpty &&
    ((after.drop 1).dropLast.contains '.')

/-! ## Fields and per-field validation (`validateField`, lines 30-77) -/

/-- A cached form control (`formFields` entry): its DOM name, current value,
`required`/`type`/`checked` properties, plus the error-UI state the module
mutates: the `error` CSS class, the `aria-invalid` attribute, and the text
of the associated `<name>Error` slot (`none` when that element is absent).
`defaultValue`/`defaultChecked` are what `form.reset()` restores. -/
structure Field where
  name : String
  value : String
  required : Bool
  type : String
  checked : Bool
  errorClass : Bool
  ariaInvalid : Option String
  errorSlot : Option String
  defaultValue : String
  defaultChecked : Bool
  deriving Repr, DecidableEq

/-- The unconditional start of `validateField`: clear the error slot's text
and remove the `error` class. -/
def clearFieldUi (f : Field) : Field :=
  { f with errorSlot := f.errorSlot.map (fun _ => ""), errorClass := false }

/-- The `if`/`else if` rule chain of `validateField`, first failing rule
wins; `value` is the trimmed value.  Returns the error message, `none` when
every rule passes. -/
def fieldRuleError (f : Field) (value : String) : Option String :=
  if f.required ∧ value = "" then
    some "This field is required"
  else if f.name = "email" ∧ value ≠ "" ∧ ¬ emailTest value then
    some "Please enter a valid email address"
  else if f.name = "phone" ∧ value ≠ "" ∧ ¬ phoneTest value then
    some "Please enter a valid phone number"
  else if (f.name = "firstName" ∨ f.name = "lastName") ∧ value ≠ "" ∧ ¬ nameTest value then
    some "Please enter a valid name (2-50 characters)"
  else if f.name = "postalCode" ∧ value ≠ "" ∧ ¬ postalCodeTest value then
    some "Please enter a valid postal code"
  else if f.type = "checkbox" ∧ f.required ∧ ¬ f.checked then
    some "You must consent to the privacy policy"
  else
    none

/-- `validateField` (lines 30-77): trims the value, clears the error UI,
returns `value === ''` for the decoy field, otherwise applies the rule
chain and publishes the error message / `error` class / `aria-invalid`
on failure.  Result: the mutated field and the boolean verdict. -/
def validateField (f : Field) : Field × Bool :=
  let value := jsTrim f.value
  let f1 := clearFieldUi f
  if f1.name = "_gotcha" then
    (f1, value == "")
  else
    match fieldRuleError f1 value with
    | some msg =>
        ({ f1 with errorClass := true,
                   errorSlot := f1.errorSlot.map (fun _ => msg),
                   ariaInvalid := some "true" }, false)
    | none =>
        ({ f1 with ariaInvalid := some "false" }, true)

/-- The `formFields` cache: one `Option Field` per entry, `none` when the
corresponding DOM element was not found at `init` time. -/
structure FormFields where
  firstName : Option Field
  lastName : Option Field
  email : Option Field
  phone : Option Field
  addressLine1 : Option Field
  addressLine2 : Option Field
  city : Option Field
  state : Option Field
  postalCode : Option Field
  country : Option Field
  privacyConsent : Option Field
  gotcha : Option Field
  deriving Repr, DecidableEq

/-- One iteration of the `validateForm` loop for one `formFields` entry:
skip absent fields and the ones named `addressLine2` / `_gotcha`; otherwise
validate the field and conjoin its verdict into the accumulator. -/
def vfStep (of : Option Field) (acc : Bool) : Option Field × Bool :=
  match of with
  | none => (none, acc)
  | some f =>
      if f.name ≠ "addressLine2" ∧ f.name ≠ "_gotcha" then
        let r := validateField f
        (some r.1, acc && r.2)
      else
        (some f, acc)

/-- `validateForm` (lines 79-87): folds `vfStep` over the `formFields`
entries in object order; returns the mutated fields and the verdict. -/
def validateForm (ff : FormFields) : FormFields × Bool :=
  let r1 := vfStep ff.firstName true
  let r2 := vfStep ff.lastName r1.2
  let r3 := vfStep ff.email r2.2
  let r4 := vfStep ff.phone r3.2
  let r5 := vfStep ff.addressLine1 r4.2
  let r6 := vfStep ff.addressLine2 r5.2
  let r7 := vfStep ff.city r6.2
  let r8 := vfStep ff.state r7.2
  let r9 := vfStep ff.postalCode r8.2
  let r10 := vfStep ff.country r9.2
  let r11 := vfStep ff.privacyConsent r10.2
  let r12 := vfStep ff.gotcha r11.2
  ({ firstName := r1.1, lastName := r2.1, email := r3.1, phone := r4.1,
     addressLine1 := r5.1, addressLine2 := r6.1, city := r7.1, state := r8.1,
     postalCode := r9.1, country := r10.1, privacyConsent := r11.1,
     gotcha := r12.1 }, r12.2)

/-! ## Order-id generation (`generateOrderId`, lines 89-93) -/

/-- The character of one base-36 digit, as produced by JS `toString(36)`
(lower-case letters for 10-35). -/
def base36Char (d : Fin 36) : Char :=
  if d.val < 10 then Char.ofNat (48 + d.val) else Char.ofNat (97 + d.val - 10)

/-- `Math.random().toString(36)`: `Math.random()` yields a double in
`[0, 1)`, and `toString(36)` prints `"0"` for zero and otherwise `"0."`
followed by the (finite, shortest round-tripping) base-36 fractional
digits.  The embedding abstracts the random draw by that digit list
`ds` — e.g. the achievable outcome `0.5` has `ds = [18]` and prints
`"0.i"`, and the outcome `0` has `ds = []`. -/
def randToString36 (ds : List (Fin 36)) : String :=
  if ds.isEmpty then "0" else ⟨'0' :: '.' :: ds.map base36Char⟩

/-- The random token of `generateOrderId`:
`Math.random().toString(36).substring(2, 9).toUpperCase()`. -/
def orderToken (ds : List (Fin 36)) : String :=
  jsToUpper (jsSubstring (randToString36 ds) 2 9)

/-- `generateOrderId` (lines 89-93), with `Date.now()` and the random draw
passed explicitly. -/
def generateOrderId (now : Nat) (ds : List (Fin 36)) : String :=
  "RJ-" ++ toString now ++ "-" ++ orderToken ds

/-! ## Payload assembly (`getFormData`, lines 95-111) -/

/-- The ephemeral OrderSubmission object built by `getFormData`. -/
structure OrderSubmission where
  orderId : String
  timestamp : String
  firstName : String
  lastName : String
  email : String
  phone : String
  addressLine1 : String
  addressLine2 : String
  city : String
  state : String
  postalCode : String
  country : String
  privacyConsent : Bool
  deriving Repr, DecidableEq

/-- `formFields.x?.value.trim() || ''`. -/
def optTrimValue (of : Option Field) : String :=
  (of.map (fun f => jsTrim f.value)).getD ""

/-- `getFormData` (lines 95-111); note that `country` is read untrimmed
(`formFields.country?.value || ''`) and `privacyConsent` is
`formFields.privacyConsent?.checked || false`. -/
def getFormData (now : Nat) (ds : List (Fin 36)) (iso : String)
    (ff : FormFields) : OrderSubmission :=
  { orderId := generateOrderId now ds
    timestamp := iso
    firstName := optTrimValue ff.firstName
    lastName := optTrimValue ff.lastName
    email := optTrimValue ff.email
    phone := optTrimValue ff.phone
    addressLine1 := optTrimValue ff.addressLine1
    addressLine2 := optTrimValue ff.addressLine2
    city := optTrimValue ff.city
    state := optTrimValue ff.state
    postalCode := optTrimValue ff.postalCode
    country := (ff.country.map Field.value).getD ""
    privacyConsent := (ff.privacyConsent.map Field.checked).getD false }

/-! ## Page state -/

/-- The submit button (`#submitOrderBtn`): its `disabled` property and the
`display` styles of its optional `.btn-text` / `.btn-spinner` children. -/
structure SubmitBtnState where
  disabled : Bool
  btnTextDisplay : Option String
  btnSpinnerDisplay : Option String
  deriving Repr, DecidableEq

/-- One outbound `fetch` call as issued by `submitFormData`. -/
structure FetchRequest where
  action : String
  method : String
  acceptHeader : String
  body : List (String × String)
  deriving Repr, DecidableEq

/-- Environment behaviour of the single `fetch` exchange. -/
inductive NetworkBehavior where
  | ok
  | notOk
  | networkError
  deriving Repr, DecidableEq

/-- The DOM/UI state the two modules read and mutate.  `focused` is the
element currently holding keyboard focus (by id); `previousFocus` is the UI
module's saved element; `alerts` / `consoleMessages` / `fetches` record the
observable effects in order. -/
structure PageState where
  formFields : FormFields
  formPresent : Bool
  formAction : Option String
  orderModalPresent : Bool
  orderModalDisplay : String
  orderModalSubmitted : Option String
  confirmationModalPresent : Bool
  confirmationModalDisplay : String
  orderIdDisplayText : Option String
  emailDisplayText : Option String
  bodyOverflow : String
  submitBtn : Option SubmitBtnState
  activeModal : Option String
  previousFocus : Option String
  focused : String
  formModulePresent : Bool
  pdfPreviewPresent : Bool
  pdfUnlockScheduled : Bool
  alerts : List String
  consoleMessages : List String
  fetches : List FetchRequest
  deriving Repr, DecidableEq

/-- The `FormData` entries contributed by one control: a checkbox
contributes an entry only when checked (its value attribute); every other
control contributes its raw (untrimmed) value. -/
def entryOf (of : Option Field) : List (String × String) :=
  match of with
  | none => []
  | some f =>
      if f.type = "checkbox" then
        if f.checked then [(f.name, f.value)] else []
      else
        [(f.name, f.value)]

/-- `new FormData(form)`: the name/value entries of the form's named
controls, in `formFields` order. -/
def formDataEntries (ff : FormFields) : List (String × String) :=
  entryOf ff.firstName ++ entryOf ff.lastName ++ entryOf ff.email ++
    entryOf ff.phone ++ entryOf ff.addressLine1 ++ entryOf ff.addressLine2 ++
    entryOf ff.city ++ entryOf ff.state ++ entryOf ff.postalCode ++
    entryOf ff.country ++ entryOf ff.privacyConsent ++ entryOf ff.gotcha

/-- `FormData.set(k, v)`: replace the first entry named `k` and drop any
later ones; append when `k` is absent. -/
def jsFormDataSet (l : List (String × String)) (k v : String) :
    List (String × String) :=
  match l with
  | [] => [(k, v)]
  | (k0, v0) :: rest =>
      if k0 = k then (k, v) :: rest.filter (fun p => !(p.1 == k))
      else (k0, v0) :: jsFormDataSet rest k v

/-! ## Submission client (`submitFormData`, lines 113-143) -/

/-- The alert text of the unconfigured-endpoint branch. -/
def formspreeAlertMsg : String :=
  "Formspree not configured. Update YOUR_FORM_ID in form action attribute."

/-- The generic alert shown by `handleSubmit`'s catch block. -/
def submitFailedAlertMsg : String :=
  "Order submission failed. Please try again or contact us directly."

/-- The effects and result of one `submitFormData` call: alerts raised,
console messages logged, fetches issued, and the settled promise —
`Except.ok orderId` on success, `Except.error msg` when it throws. -/
structure SubmitOutcome where
  alerts : List String
  consoleMessages : List String
  fetches : List FetchRequest
  result : Except String String
  deriving Repr

/-- `submitFormData` (lines 113-143).  It re-reads the form from the
document (`formPresent` / `formAction`); a missing, empty or placeholder
action alerts setup guidance and throws `FORMSPREE_NOT_CONFIGURED` before
any fetch; otherwise it serializes `new FormData(form)` with `orderId`,
`timestamp` and `_replyto` set, issues one POST, and resolves on an ok
response or logs and rethrows on a non-ok response or network error. -/
def submitFormData (s : PageState) (formData : OrderSubmission)
    (net : NetworkBehavior) : SubmitOutcome :=
  let formAction := if s.formPresent then s.formAction else none
  match formAction with
  | none =>
      ⟨[formspreeAlertMsg], [], [], .error "FORMSPREE_NOT_CONFIGURED"⟩
  | some a =>
      if a = "" ∨ strIncludes a "YOUR_FORM_ID" then
        ⟨[formspreeAlertMsg], [], [], .error "FORMSPREE_NOT_CONFIGURED"⟩
      else
        let body :=
          jsFormDataSet
            (jsFormDataSet
              (jsFormDataSet (formDataEntries s.formFields)
                "orderId" formData.orderId)
              "timestamp" formData.timestamp)
            "_replyto" formData.email
        let req : FetchRequest := ⟨a, "POST", "application/json", body⟩
        match net with
        | .ok => ⟨[], [], [req], .ok formData.orderId⟩
        | .notOk =>
            ⟨[], ["Submission error:"], [req], .error "Form submission failed"⟩
        | .networkError =>
            ⟨[], ["Submission error:"], [req], .error "NetworkError"⟩

/-! ## Form reset and modal controller -/

/-- Apply a function to every present `formFields` entry. -/
def mapFields (g : Field → Field) (ff : FormFields) : FormFields :=
  { firstName := ff.firstName.map g, lastName := ff.lastName.map g,
    email := ff.email.map g, phone := ff.phone.map g,
    addressLine1 := ff.addressLine1.map g, addressLine2 := ff.addressLine2.map g,
    city := ff.city.map g, state := ff.state.map g,
    postalCode := ff.postalCode.map g, country := ff.country.map g,
    privacyConsent := ff.privacyConsent.map g, gotcha := ff.gotcha.map g }

/-- What `resetForm` does to one control: `form.reset()` restores the
default value/checkedness, and the loop clears the `error` class, sets
`aria-invalid` to `"false"` and empties the error slot. -/
def resetField (f : Field) : Field :=
  { f with value := f.defaultValue, checked := f.defaultChecked,
           errorClass := false, ariaInvalid := some "false",
           errorSlot := f.errorSlot.map (fun _ => "") }

/-- `resetForm` (form-handler.js lines 218-232): no-op when the form
element is absent. -/
def resetForm (s : PageState) : PageState :=
  if s.formPresent then { s with formFields := mapFields resetField s.formFields }
  else s

/-- `openConfirmation` (form-handler.js lines 186-198): populate the
order-id and email display slots with the submitted payload's values, show
the confirmation modal, lock body scroll. -/
def openConfirmation (orderData : OrderSubmission) (s : PageState) : PageState :=
  if s.confirmationModalPresent then
    { s with
      orderIdDisplayText := s.orderIdDisplayText.map (fun _ => orderData.orderId),
      emailDisplayText := s.emailDisplayText.map (fun _ => orderData.email),
      confirmationModalDisplay := "flex",
      bodyOverflow := "hidden" }
  else s

/-- The effect of `setSubmitButtonLoading` on the button itself: a missing
button is left alone; otherwise `disabled` tracks `loading` and the text /
spinner children (when present) swap their `display` styles. -/
def applyBtnLoading (loading : Bool) : Option SubmitBtnState → Option SubmitBtnState
  | none => none
  | some b =>
      if loading then
        some { disabled := true,
               btnTextDisplay := b.btnTextDisplay.map (fun _ => "none"),
               btnSpinnerDisplay := b.btnSpinnerDisplay.map (fun _ => "flex") }
      else
        some { disabled := false,
               btnTextDisplay := b.btnTextDisplay.map (fun _ => "inline"),
               btnSpinnerDisplay := b.btnSpinnerDisplay.map (fun _ => "none") }

/-- `setSubmitButtonLoading` (form-handler.js lines 200-216): touches only
the submit button. -/
def setSubmitButtonLoading (loading : Bool) (s : PageState) : PageState :=
  { s with submitBtn := applyBtnLoading loading s.submitBtn }

/-- `window.openOrderForm` (ui module): saves the currently focused element
in `previousFocus`, shows the order modal, locks scroll, and (after the
focus timeout fires) focuses the first-name field when it exists.  The
Tab-wrapping focus trap is not modelled (no claim concerns it). -/
def openOrderForm (s : PageState) : PageState :=
  if s.orderModalPresent then
    let s1 := { s with previousFocus := some s.focused,
                       activeModal := some "orderModal",
                       orderModalDisplay := "flex",
                       bodyOverflow := "hidden" }
    match s1.formFields.firstName with
    | some _ => { s1 with focused := "firstName" }
    | none => s1
  else s

/-- `window.closeOrderForm` (ui module): hide the order modal, unlock
scroll, reset the form when the modal is flagged as just-submitted, and
restore (and clear) the saved previous focus. -/
def closeOrderForm (s : PageState) : PageState :=
  if s.orderModalPresent then
    let s1 := { s with orderModalDisplay := "none", bodyOverflow := "",
                       activeModal := none }
    let s2 :=
      if s1.orderModalSubmitted = some "true" ∧ s1.formModulePresent then
        { resetForm s1 with orderModalSubmitted := some "false" }
      else s1
    match s2.previousFocus with
    | some e => { s2 with focused := e, previousFocus := none }
    | none => s2
  else s

/-- `window.closeConfirmation` (ui module): hide the confirmation modal,
unlock scroll, and restore (and clear) the saved previous focus when one
exists. -/
def closeConfirmation (s : PageState) : PageState :=
  if s.confirmationModalPresent then
    let s1 := { s with confirmationModalDisplay := "none", bodyOverflow := "",
                       activeModal := none }
    match s1.previousFocus with
    | some e => { s1 with focused := e, previousFocus := none }
    | none => s1
  else s

/-- The ui module's document-level Escape handler: close the order modal
when it is shown, else the confirmation modal when it is shown. -/
def handleEscape (s : PageState) : PageState :=
  if s.orderModalPresent ∧ s.orderModalDisplay = "flex" then
    closeOrderForm s
  else if s.confirmationModalPresent ∧ s.confirmationModalDisplay = "flex" then
    closeConfirmation s
  else s

/-- Environment step: the user moves keyboard focus to element `e`
(e.g. by clicking or tabbing inside the open modal). -/
def focusElem (e : String) (s : PageState) : PageState :=
  { s with focused := e }

/-! ## Submission entry point (`handleSubmit`, lines 145-184) -/

/-- The `formFields` entries in object order. -/
def fieldsList (ff : FormFields) : List (Option Field) :=
  [ff.firstName, ff.lastName, ff.email, ff.phone, ff.addressLine1,
   ff.addressLine2, ff.city, ff.state, ff.postalCode, ff.country,
   ff.privacyConsent, ff.gotcha]

/-- `document.querySelector('.error')` after a failed validation: the first
cached field carrying the `error` class, by name. -/
def firstErrorFieldName (ff : FormFields) : Option String :=
  (((fieldsList ff).filterMap id).find? (fun f => f.errorClass)).map Field.name

/-- `handleSubmit` (lines 145-184): honeypot short-circuit, whole-form
validation (focusing the first errored control on failure), payload
assembly, loading state, one `submitFormData` exchange, then either the
success transition (flag the modal as submitted, close the order form,
open the confirmation, schedule the PDF unlock) or the generic failure
alert; the loading state is cleared in the `finally` block either way. -/
def handleSubmit (now : Nat) (ds : List (Fin 36)) (iso : String)
    (net : NetworkBehavior) (s : PageState) : PageState :=
  if s.formFields.gotcha.map (fun f => jsTrim f.value) ≠ some "" then
    { s with consoleMessages := s.consoleMessages ++ ["Spam detected"] }
  else
    let vr := validateForm s.formFields
    let s1 := { s with formFields := vr.1 }
    if ¬ vr.2 then
      match firstErrorFieldName vr.1 with
      | some nm => { s1 with focused := nm }
      | none => s1
    else
      let formData := getFormData now ds iso vr.1
      let s2 := setSubmitButtonLoading true s1
      let out := submitFormData s2 formData net
      let s3 := { s2 with
        alerts := s2.alerts ++ out.alerts,
        consoleMessages := s2.consoleMessages ++ out.consoleMessages,
        fetches := s2.fetches ++ out.fetches }
      match out.result with
      | .ok _ =>
          let s4 := if s3.orderModalPresent
                    then { s3 with orderModalSubmitted := some "true" }
                    else s3
          let s5 := openConfirmation formData (closeOrderForm s4)
          let s6 := if s5.pdfPreviewPresent
                    then { s5 with pdfUnlockScheduled := true }
                    else s5
          setSubmitButtonLoading false s6
      | .error _ =>
          setSubmitButtonLoading false
            { s3 with alerts := s3.alerts ++ [submitFailedAlertMsg] }

/-! ## Concrete page instances (used by witnesses and counterexamples) -/

/-- A form control as built by the order-form markup: present error slot,
no error state, empty defaults. -/
def mkField (nm v : String) (req : Bool) (ty : String) (chk : Bool) : Field :=
  { name := nm, value := v, required := req, type := ty, checked := chk,
    errorClass := false, ariaInvalid := none, errorSlot := some "",
    defaultValue := "", defaultChecked := false }

/-- A fully filled, valid set of form controls. -/
def sampleFields : FormFields :=
  { firstName := some (mkField "firstName" "Fatima" true "text" false)
    lastName := some (mkField "lastName" "Khan" true "text" false)
    email := some (mkField "email" "fatima@example.com" true "email" false)
    phone := some (mkField "phone" "+92-300-1234567" true "tel" false)
    addressLine1 := some (mkField "addressLine1" "12 Garden Road" true "text" false)
    addressLine2 := some (mkField "addressLine2" "" false "text" false)
    city := some (mkField "city" "Lahore" true "text" false)
    state := some (mkField "state" "Punjab" true "text" false)
    postalCode := some (mkField "postalCode" "54000" true "text" false)
    country := some (mkField "country" "Pakistan" true "select-one" false)
    privacyConsent := some (mkField "privacyConsent" "on" true "checkbox" true)
    gotcha := some (mkField "_gotcha" "" false "text" false) }

/-- The page with the order modal open on a valid, configured form. -/
def sampleState : PageState :=
  { formFields := sampleFields, formPresent := true,
    formAction := some "https://formspree.io/f/abc123",
    orderModalPresent := true, orderModalDisplay := "flex",
    orderModalSubmitted := none,
    confirmationModalPresent := true, confirmationModalDisplay := "none",
    orderIdDisplayText := some "", emailDisplayText := some "",
    bodyOverflow := "hidden",
    submitBtn := some { disabled := false, btnTextDisplay := some "inline",
                        btnSpinnerDisplay := some "none" },
    activeModal := some "orderModal", previousFocus := some "orderNowBtn",
    focused := "submitOrderBtn", formModulePresent := true,
    pdfPreviewPresent := false, pdfUnlockScheduled := false,
    alerts := [], consoleMessages := [], fetches := [] }

/-! ## Structural lemmas about per-field validation -/

theorem validateField_fst_name (f : Field) : ((validateField f).1).name = f.name := by
  unfold validateField clearFieldUi
  dsimp only
  split
  · rfl
  · split <;> rfl

theorem validateField_fst_value (f : Field) : ((validateField f).1).value = f.value := by
  unfold validateField clearFieldUi
  dsimp only
  split
  · rfl
  · split <;> rfl

theorem validateField_fst_checked (f : Field) :
    ((validateField f).1).checked = f.checked := by
  unfold validateField clearFieldUi
  dsimp only
  split
  · rfl
  · split <;> rfl

theorem vfStep_fst_value (of : Option Field) (acc : Bool) :
    ((vfStep of acc).1).map Field.value = of.map Field.value := by
  cases of with
  | none => rfl
  | some f =>
      unfold vfStep
      dsimp only
      split
      · simp [validateField_fst_value]
      · rfl

theorem vfStep_fst_checked (of : Option Field) (acc : Bool) :
    ((vfStep of acc).1).map Field.checked = of.map Field.checked := by
  cases of with
  | none => rfl
  | some f =>
      unfold vfStep
      dsimp only
      split
      · simp [validateField_fst_checked]
      · rfl

/-- Whole-form validation only touches the error UI: each entry keeps its
value.  Stated via `Option.map` so absent entries are covered. -/
theorem validateForm_fst_value (ff : FormFields) :
    ∀ pick : FormFields → Option Field,
      pick ∈ [FormFields.firstName, FormFields.lastName, FormFields.email,
              FormFields.phone, FormFields.addressLine1, FormFields.addressLine2,
              FormFields.city, FormFields.state, FormFields.postalCode,
              FormFields.country, FormFields.privacyConsent, FormFields.gotcha] →
      (pick (validateForm ff).1).map Field.value = (pick ff).map Field.value := by
  intro pick hp
  fin_cases hp <;>
    simp only [validateForm] <;> exact vfStep_fst_value _ _

/-- What a true verdict of one `validateForm` iteration yields: the
accumulator was true, and a present, non-skipped field validated. -/
theorem vfStep_snd_true (of : Option Field) (acc : Bool)
    (h : (vfStep of acc).2 = true) :
    acc = true ∧ ∀ f, of = some f → f.name ≠ "addressLine2" →
      f.name ≠ "_gotcha" → (validateField f).2 = true := by
  cases of with
  | none =>
      refine ⟨h, ?_⟩
      intro f hf
      cases hf
  | some f =>
      unfold vfStep at h
      dsimp only at h
      by_cases hc : f.name ≠ "addressLine2" ∧ f.name ≠ "_gotcha"
      · rw [if_pos hc] at h
        simp only [Bool.and_eq_true] at h
        refine ⟨h.1, ?_⟩
        intro g hg _ _
        rw [Option.some_inj] at hg
        subst hg
        exact h.2
      · rw [if_neg hc] at h
        refine ⟨h, ?_⟩
        intro g hg h1 h2
        rw [Option.some_inj] at hg
        subst hg
        exact absurd ⟨h1, h2⟩ hc

/-- A present, non-skipped entry passes `validateField`. -/
def vfOk (of : Option Field) : Prop :=
  ∀ f, of = some f → f.name ≠ "addressLine2" → f.name ≠ "_gotcha" →
    (validateField f).2 = true

/-- A true `validateForm` verdict means every present, non-skipped entry
passed its own validation. -/
theorem validateForm_snd_true (ff : FormFields)
    (h : (validateForm ff).2 = true) :
    vfOk ff.firstName ∧ vfOk ff.lastName ∧ vfOk ff.email ∧ vfOk ff.phone ∧
      vfOk ff.addressLine1 ∧ vfOk ff.city ∧ vfOk ff.state ∧
      vfOk ff.postalCode ∧ vfOk ff.country ∧ vfOk ff.privacyConsent := by
  unfold validateForm at h
  dsimp only at h
  obtain ⟨h11, _⟩ := vfStep_snd_true _ _ h
  obtain ⟨h10, hpc⟩ := vfStep_snd_true _ _ h11
  obtain ⟨h9, hco⟩ := vfStep_snd_true _ _ h10
  obtain ⟨h8, hpo⟩ := vfStep_snd_true _ _ h9
  obtain ⟨h7, hst⟩ := vfStep_snd_true _ _ h8
  obtain ⟨h6, hci⟩ := vfStep_snd_true _ _ h7
  obtain ⟨h5, _⟩ := vfStep_snd_true _ _ h6
  obtain ⟨h4, ha1⟩ := vfStep_snd_true _ _ h5
  obtain ⟨h3, hph⟩ := vfStep_snd_true _ _ h4
  obtain ⟨h2, hem⟩ := vfStep_snd_true _ _ h3
  obtain ⟨h1, hln⟩ := vfStep_snd_true _ _ h2
  obtain ⟨_, hfn⟩ := vfStep_snd_true _ _ h1
  exact ⟨hfn, hln, hem, hph, ha1, hci, hst, hpo, hco, hpc⟩

/-! ## Payload assembly is insensitive to the validation pass -/

theorem optTrimValue_map (of : Option Field) :
    optTrimValue of = ((of.map Field.value).map jsTrim).getD "" := by
  cases of <;> rfl

theorem optTrimValue_vfStep (of : Option Field) (acc : Bool) :
    optTrimValue ((vfStep of acc).1) = optTrimValue of := by
  rw [optTrimValue_map, optTrimValue_map, vfStep_fst_value]

/-- `getFormData` reads the same payload before and after the validation
pass: validation only mutates the error UI. -/
theorem getFormData_validateForm (now : Nat) (ds : List (Fin 36))
    (iso : String) (ff : FormFields) :
    getFormData now ds iso (validateForm ff).1 = getFormData now ds iso ff := by
  simp only [getFormData, validateForm, optTrimValue_vfStep]
  rw [vfStep_fst_value, vfStep_fst_checked]

/-! ## Claim C1: transmission only after validation and an empty honeypot -/

/-- A present entry passes `validateField`. -/
def fieldPasses (of : Option Field) : Prop :=
  ∀ f, of = some f → (validateField f).2 = true

/-- Every required field of the claim, when its control is present, passes
validation. -/
def requiredFieldsPass (ff : FormFields) : Prop :=
  fieldPasses ff.firstName ∧ fieldPasses ff.lastName ∧ fieldPasses ff.email ∧
    fieldPasses ff.phone ∧ fieldPasses ff.addressLine1 ∧ fieldPasses ff.city ∧
    fieldPasses ff.state ∧ fieldPasses ff.postalCode ∧ fieldPasses ff.country ∧
    fieldPasses ff.privacyConsent

/-- A cache entry, when present, carries the given DOM name. -/
def slotNamed (of : Option Field) (nm : String) : Prop :=
  ∀ f, of = some f → f.name = nm

/-- The `formFields` cache was filled by `init` from the canonically named
controls: each present entry carries its own slot's name. -/
def wellNamed (ff : FormFields) : Prop :=
  slotNamed ff.firstName "firstName" ∧ slotNamed ff.lastName "lastName" ∧
    slotNamed ff.email "email" ∧ slotNamed ff.phone "phone" ∧
    slotNamed ff.addressLine1 "addressLine1" ∧
    slotNamed ff.addressLine2 "addressLine2" ∧
    slotNamed ff.city "city" ∧ slotNamed ff.state "state" ∧
    slotNamed ff.postalCode "postalCode" ∧ slotNamed ff.country "country" ∧
    slotNamed ff.privacyConsent "privacyConsent" ∧ slotNamed ff.gotcha "_gotcha"

theorem vfOk_fieldPasses (of : Option Field) (nm : String) (h : vfOk of)
    (hn : slotNamed of nm) (h1 : nm ≠ "addressLine2") (h2 : nm ≠ "_gotcha") :
    fieldPasses of := by
  intro f hf
  have he := hn f hf
  refine h f hf ?_ ?_
  · rw [he]; exact h1
  · rw [he]; exact h2

/-- C1.  A network transmission to the relay occurs during `handleSubmit`
only if the decoy field's trimmed value is the empty string and every
required field (firstName, lastName, email, phone, addressLine1, city,
state, postalCode, country, privacyConsent) passes validation. -/
theorem fetch_only_if_valid_and_honeypot_empty
    (now : Nat) (ds : List (Fin 36)) (iso : String) (net : NetworkBehavior)
    (s : PageState) (hw : wellNamed s.formFields)
    (hf : (handleSubmit now ds iso net s).fetches ≠ s.fetches) :
    s.formFields.gotcha.map (fun f => jsTrim f.value) = some "" ∧
      requiredFieldsPass s.formFields := by
  by_cases hg : s.formFields.gotcha.map (fun f => jsTrim f.value) = some ""
  · refine ⟨hg, ?_⟩
    by_cases hv : (validateForm s.formFields).2 = true
    · obtain ⟨pfn, pln, pem, pph, pa1, pci, pst, ppo, pco, ppc⟩ :=
        validateForm_snd_true _ hv
      obtain ⟨w1, w2, w3, w4, w5, _, w7, w8, w9, w10, w11, _⟩ := hw
      exact ⟨vfOk_fieldPasses _ _ pfn w1 (by decide) (by decide),
             vfOk_fieldPasses _ _ pln w2 (by decide) (by decide),
             vfOk_fieldPasses _ _ pem w3 (by decide) (by decide),
             vfOk_fieldPasses _ _ pph w4 (by decide) (by decide),
             vfOk_fieldPasses _ _ pa1 w5 (by decide) (by decide),
             vfOk_fieldPasses _ _ pci w7 (by decide) (by decide),
             vfOk_fieldPasses _ _ pst w8 (by decide) (by decide),
             vfOk_fieldPasses _ _ ppo w9 (by decide) (by decide),
             vfOk_fieldPasses _ _ pco w10 (by decide) (by decide),
             vfOk_fieldPasses _ _ ppc w11 (by decide) (by decide)⟩
    · exfalso
      apply hf
      unfold handleSubmit
      rw [if_neg (not_not_intro hg)]
      dsimp only
      rw [if_pos hv]
      split <;> rfl
  · exfalso
    apply hf
    unfold handleSubmit
    rw [if_pos hg]

/-- Witness for C1 at a concrete, fully valid page. -/
theorem fetch_only_if_valid_and_honeypot_empty_witness :
    sampleState.formFields.gotcha.map (fun f => jsTrim f.value) = some "" ∧
      requiredFieldsPass sampleState.formFields :=
  fetch_only_if_valid_and_honeypot_empty 0 [] "" .ok sampleState
    (by refine ⟨?_, ?_, ?_, ?_, ?_, ?_, ?_, ?_, ?_, ?_, ?_, ?_⟩ <;>
          (intro f hf; cases hf; rfl))
    (by decide)

/-! ## Claims C2 and C10: honeypot short-circuit -/

/-- C2.  A present decoy field with a non-empty trimmed value makes
`handleSubmit` return with only a console warning appended: no field
validation runs, no fetch is issued, no alert is raised, no field or error
slot is touched. -/
theorem honeypot_nonempty_silently_aborts
    (now : Nat) (ds : List (Fin 36)) (iso : String) (net : NetworkBehavior)
    (s : PageState) (g : Field) (hg : s.formFields.gotcha = some g)
    (hne : jsTrim g.value ≠ "") :
    handleSubmit now ds iso net s =
      { s with consoleMessages := s.consoleMessages ++ ["Spam detected"] } := by
  unfold handleSubmit
  rw [if_pos]
  rw [hg]
  simpa using hne

/-- Witness for C2: a bot-filled decoy on an otherwise valid page. -/
def spamState : PageState :=
  { sampleState with formFields :=
      { sampleFields with gotcha := some (mkField "_gotcha" "buy now" false "text" false) } }

theorem honeypot_nonempty_silently_aborts_witness :
    handleSubmit 0 [] "" .ok spamState =
      { spamState with consoleMessages := spamState.consoleMessages ++ ["Spam detected"] } :=
  honeypot_nonempty_silently_aborts 0 [] "" .ok spamState
    (mkField "_gotcha" "buy now" false "text" false) rfl (by decide)

/-- C10.  When the decoy input is absent from the document (the cached
reference is `null`), the optional-chained honeypot read yields `undefined`,
which is unequal to the empty string, so `handleSubmit` aborts every
submission as spam: no validation, no fetch, no user-visible error. -/
theorem honeypot_missing_silently_aborts
    (now : Nat) (ds : List (Fin 36)) (iso : String) (net : NetworkBehavior)
    (s : PageState) (hg : s.formFields.gotcha = none) :
    handleSubmit now ds iso net s =
      { s with consoleMessages := s.consoleMessages ++ ["Spam detected"] } := by
  unfold handleSubmit
  rw [if_pos]
  rw [hg]
  simp

/-- Witness for C10: the valid page whose decoy input is missing. -/
def noGotchaState : PageState :=
  { sampleState with formFields := { sampleFields with gotcha := none } }

theorem honeypot_missing_silently_aborts_witness :
    handleSubmit 0 [] "" .ok noGotchaState =
      { noGotchaState with consoleMessages := noGotchaState.consoleMessages ++ ["Spam detected"] } :=
  honeypot_missing_silently_aborts 0 [] "" .ok noGotchaState rfl

/-! ## Claim C8: phone pattern on the two spec examples -/

/-- C8.  Phone validation accepts `+92-300-1234567` and rejects `12345`,
both at the pattern level and through `validateField` on a phone control. -/
theorem phone_validation_examples :
    phoneTest "+92-300-1234567" = true ∧ phoneTest "12345" = false ∧
      (validateField (mkField "phone" "+92-300-1234567" true "tel" false)).2 = true ∧
      (validateField (mkField "phone" "12345" true "tel" false)).2 = false := by
  decide

/-! ## Claim C6: order-id format -/

theorem randToString36_data_cons (ds : List (Fin 36)) (h : ds ≠ []) :
    (randToString36 ds).data = '0' :: '.' :: ds.map base36Char := by
  unfold randToString36
  rw [if_neg]
  simp [h]

/-- The random token never exceeds 7 characters. -/
theorem orderToken_length_le (ds : List (Fin 36)) :
    (orderToken ds).data.length ≤ 7 := by
  unfold orderToken jsToUpper jsSubstring
  simp only [List.length_map, List.length_take]
  exact min_le_left _ _

/-- Every character of the token is an upper-case base-36 digit. -/
theorem orderToken_charset (ds : List (Fin 36)) :
    (orderToken ds).data.all
      (fun c => c.isDigit || ('A' ≤ c && c ≤ 'Z')) = true := by
  have key : ∀ d : Fin 36, ((base36Char d).toUpper.isDigit ||
      ('A' ≤ (base36Char d).toUpper && (base36Char d).toUpper ≤ 'Z')) = true := by
    decide
  cases ds with
  | nil => decide
  | cons d rest =>
      unfold orderToken jsToUpper jsSubstring
      rw [randToString36_data_cons _ (by simp)]
      rw [List.all_eq_true]
      intro c hc
      simp only [List.drop_succ_cons, List.drop_zero] at hc
      rw [List.mem_map] at hc
      obtain ⟨a, ha, rfl⟩ := hc
      have hm := List.mem_of_mem_take ha
      rw [List.mem_map] at hm
      obtain ⟨d1, _, rfl⟩ := hm
      exact key d1

/-- Counterexample to C6 as stated: with the achievable random outcome
`Math.random() = 0.5` (base-36 digits `[18]`, printed `"0.i"`), the token
is `"I"`, one character, so no 7-character decomposition exists. -/
theorem order_id_token_not_seven_chars :
    generateOrderId 1700000000000 [(18 : Fin 36)] = "RJ-1700000000000-I" ∧
      ¬ ∃ tok : String,
          generateOrderId 1700000000000 [(18 : Fin 36)] =
            "RJ-" ++ toString (1700000000000 : Nat) ++ "-" ++ tok ∧
          tok.data.length = 7 := by
  refine ⟨by decide, ?_⟩
  rintro ⟨tok, heq, hlen⟩
  rw [show generateOrderId 1700000000000 [(18 : Fin 36)] = "RJ-1700000000000-I"
        from by decide] at heq
  have hl := congrArg String.length heq
  simp only [String.length_append] at hl
  have ht : tok.length = tok.data.length := rfl
  rw [ht, hlen] at hl
  exact absurd hl (by decide)

/-- C6 amended: every `generateOrderId` result is
`RJ-<epoch-millis>-<token>` where the token consists of upper-case base-36
characters and has length AT MOST 7 (shorter when the random draw's base-36
expansion has fewer than 7 fractional digits, e.g. length 1 for `0.5` and
length 0 for `0`). -/
theorem generateOrderId_format (now : Nat) (ds : List (Fin 36)) :
    ∃ tok : String,
      generateOrderId now ds = "RJ-" ++ toString now ++ "-" ++ tok ∧
        tok.data.length ≤ 7 ∧
        tok.data.all (fun c => c.isDigit || ('A' ≤ c && c ≤ 'Z')) = true :=
  ⟨orderToken ds, rfl, orderToken_length_le ds, orderToken_charset ds⟩

/-! ## Reduction lemmas for the submission client and the modal controller -/

/-- The serialized request body: `new FormData(form)` with `orderId`,
`timestamp` and `_replyto` set. -/
def submitBody (ff : FormFields) (fd : OrderSubmission) : List (String × String) :=
  jsFormDataSet
    (jsFormDataSet
      (jsFormDataSet (formDataEntries ff) "orderId" fd.orderId)
      "timestamp" fd.timestamp)
    "_replyto" fd.email

theorem submitFormData_ok (s : PageState) (fd : OrderSubmission) (a : String)
    (hp : s.formPresent = true) (ha : s.formAction = some a)
    (hna : ¬(a = "" ∨ strIncludes a "YOUR_FORM_ID")) :
    submitFormData s fd .ok =
      ⟨[], [], [⟨a, "POST", "application/json", submitBody s.formFields fd⟩],
        .ok fd.orderId⟩ := by
  unfold submitFormData
  rw [hp]
  simp only [if_true]
  rw [ha]
  dsimp only
  rw [if_neg hna]
  rfl

theorem submitFormData_notOk (s : PageState) (fd : OrderSubmission) (a : String)
    (hp : s.formPresent = true) (ha : s.formAction = some a)
    (hna : ¬(a = "" ∨ strIncludes a "YOUR_FORM_ID")) :
    submitFormData s fd .notOk =
      ⟨[], ["Submission error:"],
        [⟨a, "POST", "application/json", submitBody s.formFields fd⟩],
        .error "Form submission failed"⟩ := by
  unfold submitFormData
  rw [hp]
  simp only [if_true]
  rw [ha]
  dsimp only
  rw [if_neg hna]
  rfl

theorem submitFormData_networkError (s : PageState) (fd : OrderSubmission)
    (a : String) (hp : s.formPresent = true) (ha : s.formAction = some a)
    (hna : ¬(a = "" ∨ strIncludes a "YOUR_FORM_ID")) :
    submitFormData s fd .networkError =
      ⟨[], ["Submission error:"],
        [⟨a, "POST", "application/json", submitBody s.formFields fd⟩],
        .error "NetworkError"⟩ := by
  unfold submitFormData
  rw [hp]
  simp only [if_true]
  rw [ha]
  dsimp only
  rw [if_neg hna]
  rfl

theorem closeOrderForm_confPresent (s : PageState) :
    (closeOrderForm s).confirmationModalPresent = s.confirmationModalPresent := by
  unfold closeOrderForm resetForm
  split
  · dsimp only
    repeat' split
    all_goals rfl
  · rfl

theorem closeOrderForm_confDisplay (s : PageState) :
    (closeOrderForm s).confirmationModalDisplay = s.confirmationModalDisplay := by
  unfold closeOrderForm resetForm
  split
  · dsimp only
    repeat' split
    all_goals rfl
  · rfl

theorem closeOrderForm_orderIdText (s : PageState) :
    (closeOrderForm s).orderIdDisplayText = s.orderIdDisplayText := by
  unfold closeOrderForm resetForm
  split
  · dsimp only
    repeat' split
    all_goals rfl
  · rfl

theorem closeOrderForm_emailText (s : PageState) :
    (closeOrderForm s).emailDisplayText = s.emailDisplayText := by
  unfold closeOrderForm resetForm
  split
  · dsimp only
    repeat' split
    all_goals rfl
  · rfl

theorem closeOrderForm_orderDisplay (s : PageState)
    (h : s.orderModalPresent = true) :
    (closeOrderForm s).orderModalDisplay = "none" := by
  unfold closeOrderForm resetForm
  rw [if_pos h]
  dsimp only
  repeat' split
  all_goals rfl

theorem openConfirmation_orderDisplay (fd : OrderSubmission) (s : PageState) :
    (openConfirmation fd s).orderModalDisplay = s.orderModalDisplay := by
  unfold openConfirmation
  split <;> rfl

theorem openConfirmation_confDisplay (fd : OrderSubmission) (s : PageState)
    (h : s.confirmationModalPresent = true) :
    (openConfirmation fd s).confirmationModalDisplay = "flex" := by
  unfold openConfirmation
  rw [if_pos h]

theorem openConfirmation_orderIdText (fd : OrderSubmission) (s : PageState)
    (h : s.confirmationModalPresent = true) :
    (openConfirmation fd s).orderIdDisplayText =
      s.orderIdDisplayText.map (fun _ => fd.orderId) := by
  unfold openConfirmation
  rw [if_pos h]

theorem openConfirmation_emailText (fd : OrderSubmission) (s : PageState)
    (h : s.confirmationModalPresent = true) :
    (openConfirmation fd s).emailDisplayText =
      s.emailDisplayText.map (fun _ => fd.email) := by
  unfold openConfirmation
  rw [if_pos h]

/-! ## Claim C3: successful submission opens the confirmation with the payload -/

/-- C3.  For every valid submission (empty trimmed decoy, whole-form
validation passes) on a configured form whose network exchange returns ok,
`handleSubmit` hides the order-form modal, shows the confirmation modal,
and writes exactly the submitted payload's `orderId` and `email` into the
confirmation view's display slots. -/
theorem success_opens_confirmation_with_payload
    (now : Nat) (ds : List (Fin 36)) (iso : String) (s : PageState) (a : String)
    (hg : s.formFields.gotcha.map (fun f => jsTrim f.value) = some "")
    (hv : (validateForm s.formFields).2 = true)
    (hp : s.formPresent = true) (ha : s.formAction = some a)
    (hna : ¬(a = "" ∨ strIncludes a "YOUR_FORM_ID"))
    (hom : s.orderModalPresent = true) (hcm : s.confirmationModalPresent = true)
    (t1 t2 : String) (hot : s.orderIdDisplayText = some t1)
    (het : s.emailDisplayText = some t2) :
    (handleSubmit now ds iso .ok s).orderModalDisplay = "none" ∧
    (handleSubmit now ds iso .ok s).confirmationModalDisplay = "flex" ∧
    (handleSubmit now ds iso .ok s).orderIdDisplayText =
      some (getFormData now ds iso s.formFields).orderId ∧
    (handleSubmit now ds iso .ok s).emailDisplayText =
      some (getFormData now ds iso s.formFields).email := by
  unfold handleSubmit
  rw [if_neg (not_not_intro hg)]
  try dsimp only
  rw [if_neg (not_not_intro hv)]
  dsimp only [setSubmitButtonLoading]
  rw [getFormData_validateForm]
  rw [submitFormData_ok
        ({ s with formFields := (validateForm s.formFields).1,
                  submitBtn := applyBtnLoading true s.submitBtn })
        (getFormData now ds iso s.formFields) a hp ha hna]
  dsimp only
  rw [if_pos hom]
  refine ⟨?_, ?_, ?_, ?_⟩
  · dsimp only [setSubmitButtonLoading]
    split
    · dsimp only
      rw [openConfirmation_orderDisplay, closeOrderForm_orderDisplay]
      exact hom
    · rw [openConfirmation_orderDisplay, closeOrderForm_orderDisplay]
      exact hom
  · dsimp only [setSubmitButtonLoading]
    split
    · dsimp only
      rw [openConfirmation_confDisplay]
      rw [closeOrderForm_confPresent]
      exact hcm
    · rw [openConfirmation_confDisplay]
      rw [closeOrderForm_confPresent]
      exact hcm
  · dsimp only [setSubmitButtonLoading]
    split
    · dsimp only
      rw [openConfirmation_orderIdText]
      · rw [closeOrderForm_orderIdText]
        dsimp only
        rw [hot]
        rfl
      · rw [closeOrderForm_confPresent]
        exact hcm
    · rw [openConfirmation_orderIdText]
      · rw [closeOrderForm_orderIdText]
        dsimp only
        rw [hot]
        rfl
      · rw [closeOrderForm_confPresent]
        exact hcm
  · dsimp only [setSubmitButtonLoading]
    split
    · dsimp only
      rw [openConfirmation_emailText]
      · rw [closeOrderForm_emailText]
        dsimp only
        rw [het]
        rfl
      · rw [closeOrderForm_confPresent]
        exact hcm
    · rw [openConfirmation_emailText]
      · rw [closeOrderForm_emailText]
        dsimp only
        rw [het]
        rfl
      · rw [closeOrderForm_confPresent]
        exact hcm

/-- Witness for C3 on the concrete valid page. -/
theorem success_opens_confirmation_with_payload_witness :
    (handleSubmit 1700000000000 [18] "2026-01-01T00:00:00.000Z" .ok sampleState).orderModalDisplay = "none" ∧
    (handleSubmit 1700000000000 [18] "2026-01-01T00:00:00.000Z" .ok sampleState).confirmationModalDisplay = "flex" ∧
    (handleSubmit 1700000000000 [18] "2026-01-01T00:00:00.000Z" .ok sampleState).orderIdDisplayText =
      some (getFormData 1700000000000 [18] "2026-01-01T00:00:00.000Z" sampleState.formFields).orderId ∧
    (handleSubmit 1700000000000 [18] "2026-01-01T00:00:00.000Z" .ok sampleState).emailDisplayText =
      some (getFormData 1700000000000 [18] "2026-01-01T00:00:00.000Z" sampleState.formFields).email :=
  success_opens_confirmation_with_payload 1700000000000 [18]
    "2026-01-01T00:00:00.000Z" sampleState "https://formspree.io/f/abc123"
    (by decide) (by decide) rfl rfl (by decide) rfl rfl "" "" rfl rfl

/-! ## Claim C4: failed submission keeps the form state recoverable -/

/-- The entered value of every cached control, in object order. -/
def fieldValuesOf (ff : FormFields) : List (Option String) :=
  (fieldsList ff).map (fun of => of.map Field.value)

theorem fieldValuesOf_validateForm (ff : FormFields) :
    fieldValuesOf (validateForm ff).1 = fieldValuesOf ff := by
  unfold fieldValuesOf fieldsList validateForm
  dsimp only
  simp only [List.map_cons, List.map_nil, vfStep_fst_value]

/-- C4.  For every valid submission on a configured form whose network
exchange fails (non-ok response or network error), the order modal and
confirmation modal displays are untouched (the state stays at
order-form-open), the generic failure alert is appended, every entered
field value is unchanged, and the submit control ends re-enabled. -/
theorem failed_submission_keeps_form_open
    (now : Nat) (ds : List (Fin 36)) (iso : String) (s : PageState)
    (a : String) (net : NetworkBehavior) (b : SubmitBtnState)
    (hg : s.formFields.gotcha.map (fun f => jsTrim f.value) = some "")
    (hv : (validateForm s.formFields).2 = true)
    (hp : s.formPresent = true) (ha : s.formAction = some a)
    (hna : ¬(a = "" ∨ strIncludes a "YOUR_FORM_ID"))
    (hb : s.submitBtn = some b)
    (hn : net = .notOk ∨ net = .networkError) :
    (handleSubmit now ds iso net s).orderModalDisplay = s.orderModalDisplay ∧
    (handleSubmit now ds iso net s).confirmationModalDisplay = s.confirmationModalDisplay ∧
    (handleSubmit now ds iso net s).alerts = s.alerts ++ [submitFailedAlertMsg] ∧
    fieldValuesOf (handleSubmit now ds iso net s).formFields =
      fieldValuesOf s.formFields ∧
    ((handleSubmit now ds iso net s).submitBtn).map SubmitBtnState.disabled =
      some false := by
  unfold handleSubmit
  rw [if_neg (not_not_intro hg)]
  try dsimp only
  rw [if_neg (not_not_intro hv)]
  dsimp only [setSubmitButtonLoading]
  cases hn with
  | inl h =>
      subst h
      rw [submitFormData_notOk
            ({ s with formFields := (validateForm s.formFields).1,
                      submitBtn := applyBtnLoading true s.submitBtn })
            (getFormData now ds iso (validateForm s.formFields).1) a hp ha hna]
      dsimp only [setSubmitButtonLoading]
      refine ⟨rfl, rfl, by simp, ?_, ?_⟩
      · exact fieldValuesOf_validateForm s.formFields
      · rw [hb]
        simp [applyBtnLoading]
  | inr h =>
      subst h
      rw [submitFormData_networkError
            ({ s with formFields := (validateForm s.formFields).1,
                      submitBtn := applyBtnLoading true s.submitBtn })
            (getFormData now ds iso (validateForm s.formFields).1) a hp ha hna]
      dsimp only [setSubmitButtonLoading]
      refine ⟨rfl, rfl, by simp, ?_, ?_⟩
      · exact fieldValuesOf_validateForm s.formFields
      · rw [hb]
        simp [applyBtnLoading]

/-- Witness for C4 on the concrete valid page with a failing endpoint. -/
theorem failed_submission_keeps_form_open_witness :
    (handleSubmit 0 [] "" .notOk sampleState).orderModalDisplay = sampleState.orderModalDisplay ∧
    (handleSubmit 0 [] "" .notOk sampleState).confirmationModalDisplay = sampleState.confirmationModalDisplay ∧
    (handleSubmit 0 [] "" .notOk sampleState).alerts = sampleState.alerts ++ [submitFailedAlertMsg] ∧
    fieldValuesOf (handleSubmit 0 [] "" .notOk sampleState).formFields =
      fieldValuesOf sampleState.formFields ∧
    ((handleSubmit 0 [] "" .notOk sampleState).submitBtn).map SubmitBtnState.disabled =
      some false :=
  failed_submission_keeps_form_open 0 [] "" sampleState
    "https://formspree.io/f/abc123" .notOk
    { disabled := false, btnTextDisplay := some "inline", btnSpinnerDisplay := some "none" }
    (by decide) (by decide) rfl rfl (by decide) rfl (Or.inl rfl)

/-! ## Claim C5: unconfigured endpoint fails fast -/

/-- The form's effective action attribute is missing, empty, or still the
placeholder (`!formAction || formAction.includes('YOUR_FORM_ID')`). -/
def actionNotConfigured (s : PageState) : Prop :=
  (if s.formPresent then s.formAction else none) = none ∨
    ∃ a, (if s.formPresent then s.formAction else none) = some a ∧
      (a = "" ∨ strIncludes a "YOUR_FORM_ID")

/-- Fail-fast shape of `submitFormData` on an unconfigured form: setup
alert, no fetch, distinct error classification. -/
theorem submitFormData_notConfigured (s : PageState) (fd : OrderSubmission)
    (net : NetworkBehavior) (h : actionNotConfigured s) :
    submitFormData s fd net =
      ⟨[formspreeAlertMsg], [], [], .error "FORMSPREE_NOT_CONFIGURED"⟩ := by
  unfold submitFormData
  cases h with
  | inl h =>
      rw [h]
  | inr h =>
      obtain ⟨a, ha, hbad⟩ := h
      rw [ha]
      dsimp only
      rw [if_pos hbad]

/-- C5 amended.  With a missing/empty/placeholder action attribute the
submission client fails fast — it alerts the setup guidance, issues no
fetch, and throws the distinct `FORMSPREE_NOT_CONFIGURED` classification —
but the submit handler's catch-all then ALSO surfaces the generic
transport-failure alert, so the user sees both messages. -/
theorem formspree_not_configured_fails_fast
    (now : Nat) (ds : List (Fin 36)) (iso : String) (net : NetworkBehavior)
    (s : PageState) (fd : OrderSubmission)
    (hC : actionNotConfigured s)
    (hg : s.formFields.gotcha.map (fun f => jsTrim f.value) = some "")
    (hv : (validateForm s.formFields).2 = true) :
    submitFormData s fd net =
      ⟨[formspreeAlertMsg], [], [], .error "FORMSPREE_NOT_CONFIGURED"⟩ ∧
    (handleSubmit now ds iso net s).fetches = s.fetches ∧
    (handleSubmit now ds iso net s).alerts =
      s.alerts ++ [formspreeAlertMsg, submitFailedAlertMsg] := by
  refine ⟨submitFormData_notConfigured s fd net hC, ?_⟩
  unfold handleSubmit
  rw [if_neg (not_not_intro hg)]
  try dsimp only
  rw [if_neg (not_not_intro hv)]
  dsimp only [setSubmitButtonLoading]
  rw [submitFormData_notConfigured
        ({ s with formFields := (validateForm s.formFields).1,
                  submitBtn := applyBtnLoading true s.submitBtn })
        (getFormData now ds iso (validateForm s.formFields).1) net hC]
  dsimp only [setSubmitButtonLoading]
  exact ⟨by simp, by simp⟩

/-- The page left with the placeholder Formspree action. -/
def notConfiguredState : PageState :=
  { sampleState with formAction := some "https://formspree.io/f/YOUR_FORM_ID" }

/-- Counterexample to C5 as stated: on the placeholder endpoint the user is
shown the generic transport-failure alert IN ADDITION to the setup
guidance, not the setup guidance "rather than" it. -/
theorem generic_alert_also_shown_when_not_configured :
    (handleSubmit 0 [] "" .ok notConfiguredState).alerts =
      [formspreeAlertMsg, submitFailedAlertMsg] ∧
    submitFailedAlertMsg ∈ (handleSubmit 0 [] "" .ok notConfiguredState).alerts := by
  decide

/-- Witness for the amended C5 at the placeholder page. -/
theorem formspree_not_configured_fails_fast_witness :
    submitFormData notConfiguredState
        (getFormData 0 [] "" notConfiguredState.formFields) .ok =
      ⟨[formspreeAlertMsg], [], [], .error "FORMSPREE_NOT_CONFIGURED"⟩ ∧
    (handleSubmit 0 [] "" .ok notConfiguredState).fetches = notConfiguredState.fetches ∧
    (handleSubmit 0 [] "" .ok notConfiguredState).alerts =
      notConfiguredState.alerts ++ [formspreeAlertMsg, submitFailedAlertMsg] :=
  formspree_not_configured_fails_fast 0 [] "" .ok notConfiguredState
    (getFormData 0 [] "" notConfiguredState.formFields)
    (Or.inr ⟨"https://formspree.io/f/YOUR_FORM_ID", rfl, Or.inr (by decide)⟩)
    (by decide) (by decide)

/-! ## Claim C7: trimming around validation and transmission -/

theorem lookup_filter_ne (l : List (String × String)) (k k2 : String)
    (h : k2 ≠ k) :
    (l.filter (fun p => !(p.1 == k))).lookup k2 = l.lookup k2 := by
  induction l with
  | nil => rfl
  | cons p rest ih =>
      obtain ⟨k0, v0⟩ := p
      by_cases hk : k0 = k
      · subst hk
        have hb : (k2 == k0) = false := by simp [h]
        simp [List.filter, List.lookup, hb, ih]
      · have hb0 : (k0 == k) = false := by simp [hk]
        cases hx : k2 == k0 <;> simp [List.filter, List.lookup, hb0, hx, ih]

theorem jsFormDataSet_lookup_self (l : List (String × String)) (k v : String) :
    (jsFormDataSet l k v).lookup k = some v := by
  induction l with
  | nil => simp [jsFormDataSet, List.lookup]
  | cons p rest ih =>
      obtain ⟨k0, v0⟩ := p
      by_cases hk : k0 = k
      · subst hk
        simp [jsFormDataSet, List.lookup]
      · have hb : (k == k0) = false := by
          simp
          intro he
          exact hk he.symm
        simp [jsFormDataSet, hk, List.lookup, hb, ih]

theorem jsFormDataSet_lookup_ne (l : List (String × String)) (k v k2 : String)
    (h : k2 ≠ k) :
    (jsFormDataSet l k v).lookup k2 = l.lookup k2 := by
  induction l with
  | nil =>
      have hb : (k2 == k) = false := by simp [h]
      simp [jsFormDataSet, List.lookup, hb]
  | cons p rest ih =>
      obtain ⟨k0, v0⟩ := p
      by_cases hk : k0 = k
      · subst hk
        have hb : (k2 == k0) = false := by simp [h]
        simp [jsFormDataSet, List.lookup, hb, lookup_filter_ne rest k0 k2 h]
      · simp [jsFormDataSet, hk, List.lookup, ih]

theorem validateField_fst_type (f : Field) : ((validateField f).1).type = f.type := by
  unfold validateField clearFieldUi
  dsimp only
  split
  · rfl
  · split <;> rfl

theorem entryOf_vfStep (of : Option Field) (acc : Bool) :
    entryOf ((vfStep of acc).1) = entryOf of := by
  cases of with
  | none => rfl
  | some f =>
      unfold vfStep
      dsimp only
      split
      · simp [entryOf, validateField_fst_type, validateField_fst_checked,
              validateField_fst_name, validateField_fst_value]
      · rfl

/-- The raw `FormData` entries are unchanged by the validation pass. -/
theorem formDataEntries_validateForm (ff : FormFields) :
    formDataEntries (validateForm ff).1 = formDataEntries ff := by
  unfold formDataEntries validateForm
  dsimp only
  simp only [entryOf_vfStep]

theorem submitBody_validateForm (ff : FormFields) (fd : OrderSubmission) :
    submitBody (validateForm ff).1 fd = submitBody ff fd := by
  unfold submitBody
  rw [formDataEntries_validateForm]

theorem fieldRuleError_eq_of (f1 f2 : Field) (v : String)
    (hn : f1.name = f2.name) (hr : f1.required = f2.required)
    (ht : f1.type = f2.type) (hc : f1.checked = f2.checked) :
    fieldRuleError f1 v = fieldRuleError f2 v := by
  unfold fieldRuleError
  rw [hn, hr, ht, hc]

/-- The validation verdict as a function of the trimmed value. -/
theorem validateField_snd (f : Field) :
    (validateField f).2 =
      (if f.name = "_gotcha" then jsTrim f.value == ""
       else (fieldRuleError (clearFieldUi f) (jsTrim f.value)).isNone) := by
  unfold validateField clearFieldUi
  dsimp only
  split
  · rfl
  · split <;> simp [*]

/-- Per-field validation depends on the value only through its trimmed
form: replacing the value by anything with the same trim leaves the
verdict unchanged. -/
theorem validateField_on_trimmed (f : Field) (v2 : String)
    (h : jsTrim f.value = jsTrim v2) :
    (validateField { f with value := v2 }).2 = (validateField f).2 := by
  rw [validateField_snd, validateField_snd]
  have hc : fieldRuleError (clearFieldUi { f with value := v2 }) (jsTrim v2) =
      fieldRuleError (clearFieldUi f) (jsTrim v2) :=
    fieldRuleError_eq_of _ _ _ rfl rfl rfl rfl
  rw [← h] at hc
  dsimp only
  rw [← h, hc]

theorem closeOrderForm_fetches (s : PageState) :
    (closeOrderForm s).fetches = s.fetches := by
  unfold closeOrderForm resetForm
  split
  · dsimp only
    repeat' split
    all_goals rfl
  · rfl

theorem openConfirmation_fetches (fd : OrderSubmission) (s : PageState) :
    (openConfirmation fd s).fetches = s.fetches := by
  unfold openConfirmation
  split <;> rfl

/-- C7 amended.  Customer fields are trimmed for validation (the verdict
depends on the value only through its trim), and in the ASSEMBLED payload
object; but the TRANSMITTED body is `new FormData(form)` — the raw,
untrimmed control values — with only the derived `orderId` / `timestamp` /
`_replyto` entries overridden, `_replyto` carrying the trimmed email. -/
theorem fields_trimmed_for_validation_but_transmitted_raw
    (now : Nat) (ds : List (Fin 36)) (iso : String) (s : PageState) (a : String)
    (hg : s.formFields.gotcha.map (fun f => jsTrim f.value) = some "")
    (hv : (validateForm s.formFields).2 = true)
    (hp : s.formPresent = true) (ha : s.formAction = some a)
    (hna : ¬(a = "" ∨ strIncludes a "YOUR_FORM_ID")) :
    (∀ (f : Field) (v2 : String), jsTrim f.value = jsTrim v2 →
        (validateField { f with value := v2 }).2 = (validateField f).2) ∧
    (handleSubmit now ds iso .ok s).fetches =
      s.fetches ++ [⟨a, "POST", "application/json",
        submitBody s.formFields (getFormData now ds iso s.formFields)⟩] ∧
    (∀ k, k ≠ "orderId" → k ≠ "timestamp" → k ≠ "_replyto" →
        (submitBody s.formFields (getFormData now ds iso s.formFields)).lookup k =
          (formDataEntries s.formFields).lookup k) ∧
    (submitBody s.formFields (getFormData now ds iso s.formFields)).lookup "_replyto" =
      some (optTrimValue s.formFields.email) := by
  refine ⟨fun f v2 h => validateField_on_trimmed f v2 h, ?_, ?_, ?_⟩
  · unfold handleSubmit
    rw [if_neg (not_not_intro hg)]
    try dsimp only
    rw [if_neg (not_not_intro hv)]
    dsimp only [setSubmitButtonLoading]
    rw [getFormData_validateForm]
    rw [submitFormData_ok
          ({ s with formFields := (validateForm s.formFields).1,
                    submitBtn := applyBtnLoading true s.submitBtn })
          (getFormData now ds iso s.formFields) a hp ha hna]
    rw [submitBody_validateForm]
    dsimp only
    split
    · try dsimp only [setSubmitButtonLoading]
      split
      · try dsimp only
        rw [openConfirmation_fetches, closeOrderForm_fetches]
      · rw [openConfirmation_fetches, closeOrderForm_fetches]
    · try dsimp only [setSubmitButtonLoading]
      split
      · try dsimp only
        rw [openConfirmation_fetches, closeOrderForm_fetches]
      · rw [openConfirmation_fetches, closeOrderForm_fetches]
  · intro k h1 h2 h3
    unfold submitBody
    rw [jsFormDataSet_lookup_ne _ _ _ _ h3, jsFormDataSet_lookup_ne _ _ _ _ h2,
        jsFormDataSet_lookup_ne _ _ _ _ h1]
  · unfold submitBody
    rw [jsFormDataSet_lookup_self]
    rfl

/-- The valid page whose first-name control holds an untrimmed value. -/
def trimState : PageState :=
  { sampleState with formFields :=
      { sampleFields with
          firstName := some (mkField "firstName" " Fatima " true "text" false) } }

/-- Counterexample to C7 as stated: the value `" Fatima "` passes
validation (its trim is a valid name) but is transmitted to the relay
untrimmed — the request body's `firstName` entry is `" Fatima "`, not
`"Fatima"`. -/
theorem untrimmed_value_transmitted :
    (validateForm trimState.formFields).2 = true ∧
    jsTrim " Fatima " = "Fatima" ∧
    ((handleSubmit 0 [] "" .ok trimState).fetches.map
        (fun r => r.body.lookup "firstName")) = [some " Fatima "] := by
  decide

/-- Witness for the amended C7 at the untrimmed-first-name page. -/
theorem fields_trimmed_for_validation_but_transmitted_raw_witness :
    (∀ (f : Field) (v2 : String), jsTrim f.value = jsTrim v2 →
        (validateField { f with value := v2 }).2 = (validateField f).2) ∧
    (handleSubmit 0 [] "" .ok trimState).fetches =
      trimState.fetches ++ [⟨"https://formspree.io/f/abc123", "POST", "application/json",
        submitBody trimState.formFields (getFormData 0 [] "" trimState.formFields)⟩] ∧
    (∀ k, k ≠ "orderId" → k ≠ "timestamp" → k ≠ "_replyto" →
        (submitBody trimState.formFields (getFormData 0 [] "" trimState.formFields)).lookup k =
          (formDataEntries trimState.formFields).lookup k) ∧
    (submitBody trimState.formFields (getFormData 0 [] "" trimState.formFields)).lookup "_replyto" =
      some (optTrimValue trimState.formFields.email) :=
  fields_trimmed_for_validation_but_transmitted_raw 0 [] "" trimState
    "https://formspree.io/f/abc123" (by decide) (by decide) rfl rfl (by decide)

/-! ## Claim C9: focus restoration after closing the confirmation -/

/-- The page at rest: both modals closed, focus on the order button. -/
def c9Start : PageState :=
  { sampleState with
      orderModalDisplay := "none",
      confirmationModalDisplay := "none",
      activeModal := none,
      previousFocus := none,
      focused := "orderNowBtn",
      bodyOverflow := "" }

/-- The page right after a successful submission that began from
`c9Start`: open the order form, submit with an ok network response. -/
def c9AfterSubmit : PageState :=
  handleSubmit 1700000000000 [18, 2, 3] "2026-01-01T00:00:00.000Z" .ok
    (openOrderForm c9Start)

/-- ... the user then moves focus inside the confirmation dialog and
closes it with the Escape key. -/
def c9Final : PageState :=
  handleEscape (focusElem "confirmationCloseBtn" c9AfterSubmit)

/-- C9 evaluated on its failing trace: `openOrderForm` saves the
previously focused element (`orderNowBtn`), but the success transition's
`closeOrderForm` call already restores AND CLEARS that saved element while
the confirmation opens, so when the confirmation is later closed (Escape
here) `previousFocus` is `null` and `closeConfirmation` performs no focus
restore: the state does return to closed, but focus stays wherever it last
was inside the confirmation dialog instead of returning to
`orderNowBtn`. -/
theorem confirmation_close_skips_focus_restore :
    c9Start.focused = "orderNowBtn" ∧
    (openOrderForm c9Start).previousFocus = some "orderNowBtn" ∧
    c9AfterSubmit.confirmationModalDisplay = "flex" ∧
    c9AfterSubmit.previousFocus = none ∧
    c9Final.confirmationModalDisplay = "none" ∧
    c9Final.orderModalDisplay = "none" ∧
    c9Final.focused = "confirmationCloseBtn" ∧
    c9Final.focused ≠ "orderNowBtn" := by
  decide

end Arise







